import Mathlib

/-!
Verification of the Claude executor module (invocation resolution, spawn
fallback, and log normalization) against its natural-language specification.

The Rust source is shallowly embedded: pure functions become Lean functions;
the two external effects are passed as explicit parameters —
`parse : String → Option Json` stands for `serde_json::from_str` on one line,
and `canon : String → Option String` stands for `std::fs::canonicalize`
(`none` models an `Err` result, e.g. a nonexistent path).  The process-wide
`OnceLock` cache is threaded as explicit state.
-/

namespace ClaudeVerify

/-! ## String utilities

Structural-recursion replacements for the `String` operations the Rust code
uses (`str::lines`, `str::trim`, `str::contains`, `str::to_lowercase`,
splitting a path on `/`), so that closed instances kernel-evaluate. -/

/-- ASCII whitespace test used by the `trim` model. -/
def isWhitespaceChar (c : Char) : Bool :=
  (c == ' ') || (c == '\t') || (c == '\n') || (c == '\r')

/-- Model of `str::trim`: drop whitespace from both ends. -/
def trimStr (s : String) : String :=
  String.mk (((s.toList.dropWhile isWhitespaceChar).reverse.dropWhile isWhitespaceChar).reverse)

/-- Split a character list on a separator character. -/
def splitOnSep (sep : Char) : List Char → List (List Char)
  | [] => [[]]
  | c :: rest =>
    let r := splitOnSep sep rest
    if c == sep then [] :: r
    else
      match r with
      | head :: tail => (c :: head) :: tail
      | [] => [[c]]

/-- Model of `str::lines` (splitting on newline; the carriage return and the
final empty segment are neutralized later by trimming and blank-line skip). -/
def strLines (s : String) : List String :=
  (splitOnSep '\n' s.toList).map String.mk

/-- `needle` occurs at the front of `hay`. -/
def listIsPre : List Char → List Char → Bool
  | [], _ => true
  | _ :: _, [] => false
  | n :: ns, h :: hs => (n == h) && listIsPre ns hs

/-- `needle` occurs somewhere inside `hay`. -/
def listHasInfix (needle : List Char) : List Char → Bool
  | [] => listIsPre needle []
  | c :: rest => listIsPre needle (c :: rest) || listHasInfix needle rest

/-- Model of `str::contains(substring)`. -/
def strContains (hay needle : String) : Bool :=
  listHasInfix needle.toList hay.toList

/-- ASCII lowercase of one character (the tool names dispatched on are ASCII). -/
def lowerChar (c : Char) : Char :=
  if 'A' ≤ c && c ≤ 'Z' then Char.ofNat (c.toNat + 32) else c

/-- Model of `str::to_lowercase`. -/
def lowerStr (s : String) : String :=
  String.mk (s.toList.map lowerChar)

/-- Join strings with a separator. -/
def joinWith (sep : String) : List String → String
  | [] => ""
  | [x] => x
  | x :: y :: rest => x ++ sep ++ joinWith sep (y :: rest)

/-! ## JSON values

Model of `serde_json::Value` with the accessors the source uses
(`get`, `as_str`, `as_array`). -/

inductive Json where
  | null : Json
  | bool (b : Bool) : Json
  | num (n : Int) : Json
  | str (s : String) : Json
  | arr (items : List Json) : Json
  | obj (fields : List (String × Json)) : Json

/-- First binding of a key in an object field list. -/
def lookupField : List (String × Json) → String → Option Json
  | [], _ => none
  | (k, v) :: rest, key => if k = key then some v else lookupField rest key

/-- Model of `Value::get(key)` on objects. -/
def Json.getField : Json → String → Option Json
  | .obj fields, key => lookupField fields key
  | _, _ => none

/-- Model of `Value::as_str`. -/
def Json.asStr : Json → Option String
  | .str s => some s
  | _ => none

/-- Model of `Value::as_array`. -/
def Json.asArr : Json → Option (List Json)
  | .arr items => some items
  | _ => none

/-- `json.get(key).and_then(|v| v.as_str())`, the idiom used throughout. -/
def jsonStrField (j : Json) (key : String) : Option String :=
  (Json.getField j key).bind Json.asStr

/-! ## Path relativization (`ClaudeExecutor::make_path_relative`) -/

/-- Model of `Path::is_relative` on Unix: no leading root. -/
def isRelativePath (p : String) : Bool :=
  match p.toList with
  | '/' :: _ => false
  | _ => true

/-- Path components, with a marker for the root so that an absolute prefix can
only strip from an absolute path (component model of `Path::components`). -/
def pathComponents (p : String) : List String :=
  let parts := ((splitOnSep '/' p.toList).map String.mk).filter (fun s => !(s == ""))
  if isRelativePath p then parts else "/" :: parts

/-- Component-wise model of `Path::strip_prefix`: the remainder of `p` after
removing leading components `base`, or `none` when `base` is not a prefix. -/
def pathRemainder (p base : String) : Option String :=
  let pc := pathComponents p
  let bc := pathComponents base
  if pc.take bc.length = bc then some (joinWith "/" (pc.drop bc.length)) else none

/-- `ClaudeExecutor::make_path_relative` with `std::fs::canonicalize` passed in
as `canon` (`none` = the canonicalization errored, e.g. path does not exist). -/
def makePathRelative (canon : String → Option String) (path worktreePath : String) : String :=
  if isRelativePath path then path
  else
    match pathRemainder path worktreePath with
    | some r => r
    | none =>
      match canon path, canon worktreePath with
      | some canonPath, some canonWorktree =>
        match pathRemainder canonPath canonWorktree with
        | some r => r
        | none => path
      | _, _ => path

/-! ## Command construction and resolution -/

/-- The universal fallback base invocation (`npx -y @anthropic-ai/claude-code@latest`). -/
def npxBaseCommand : String := "npx -y @anthropic-ai/claude-code@latest"

/-- `build_claude_command`: append the mode-dependent flags. -/
def buildClaudeCommand (baseCommand : String) (usePlanMode : Bool) : String :=
  if usePlanMode then
    baseCommand ++ " -p --permission-mode=plan --verbose --output-format=stream-json"
  else
    baseCommand ++ " -p --dangerously-skip-permissions --verbose --output-format=stream-json"

/-- The sentinel phrase watched for in plan mode. -/
def claudePlanStopIndicator : String :=
  "Claude requested permissions to use exit_plan_mode, but you haven\x27t granted it yet"

/-- `create_watchkill_script`: the generated monitor script text.  The Rust
format string is a raw string, so its ` \x5cn ` inside `printf` stays a literal
backslash-n, and the braces around `PIPESTATUS[0]` are literal. -/
def createWatchkillScript (command : String) : String :=
  "#!/usr/bin/env bash\nset -euo pipefail\n\nword=\"" ++ claudePlanStopIndicator ++
  "\"\ncommand=\"" ++ command ++
  "\"\n\nexit_code=0\nwhile IFS= read -r line; do\n    printf \x27%s\\n\x27 \"$line\"\n    if [[ $line == *\"$word\"* ]]; then\n        exit 0\n    fi\ndone < <($command <&0 2>&1)\n\nexit_code=$\x7bPIPESTATUS[0]\x7d\nexit \"$exit_code\"\n"

/-- The two I/O lookups `get_claude_command` performs: the `.claude.json`
config field (`get_claude_config_path`) and the local-installation probe
(`detect_local_claude_code`), each modeled by its result. -/
structure ClaudeEnv where
  configPath : Option String
  detectResult : Option String

/-- `LOCAL_CLAUDE_CODE.get_or_init(|| None)`: the `OnceLock` state is
`none` when unset, `some v` once initialized; the init closure stores `None`.
Returns the read value and the state after the call. -/
def cacheGetOrInitNone : Option (Option String) → Option String × Option (Option String)
  | some v => (v, some v)
  | none => (none, some none)

/-- Result of one `get_claude_command` call: the command string, whether
`detect_local_claude_code` was invoked (a probe ran), and the `LOCAL_CLAUDE_CODE`
state after the call. -/
structure ClaudeCommandCall where
  command : String
  probed : Bool
  cache : Option (Option String)

/-- `get_claude_command`, with the `OnceLock` threaded as explicit state. -/
def getClaudeCommand (env : ClaudeEnv) (usePlanMode : Bool)
    (cache : Option (Option String)) : ClaudeCommandCall :=
  match env.configPath with
  | some configPath => ⟨buildClaudeCommand configPath usePlanMode, false, cache⟩
  | none =>
    let read := cacheGetOrInitNone cache
    match read.1 with
    | none =>
      match env.detectResult with
      | some path => ⟨buildClaudeCommand path usePlanMode, true, read.2⟩
      | none => ⟨buildClaudeCommand npxBaseCommand usePlanMode, true, read.2⟩
    | some localPath => ⟨buildClaudeCommand localPath usePlanMode, false, read.2⟩

/-! ## Spawning with fallback

`try_spawn_with_command` performs the OS spawn; it is modeled by an oracle
`spawn : String → Except String α` from the shell command to either an error
or a child handle.  `try_spawn_with_fallback` is embedded together with an
instrumentation trace: the list of commands passed to `try_spawn_with_command`,
in order, so that "number of retries" is statable. -/

/-- `ClaudeExecutor::get_command`: caller override wins; otherwise resolve
(`resolveCommand b` models `get_claude_command(b).await`) and wrap in plan mode. -/
def ClaudeExecutor.getCommand (resolveCommand : Bool → String)
    (commandOverride : Option String) (usePlanMode : Bool) : String :=
  match commandOverride with
  | some cmd => cmd
  | none =>
    if usePlanMode then createWatchkillScript (resolveCommand true)
    else resolveCommand false

/-- The fallback command built inside `ClaudeExecutor::try_spawn_with_fallback`. -/
def claudeFallbackCommand (usePlanMode : Bool) : String :=
  if usePlanMode then createWatchkillScript (buildClaudeCommand npxBaseCommand true)
  else buildClaudeCommand npxBaseCommand false

/-- `ClaudeExecutor::try_spawn_with_fallback`, given the already-resolved
primary command (`self.get_command().await` in the source).  Returns the final
outcome and the trace of attempted commands. -/
def ClaudeExecutor.trySpawnWithFallback {α : Type} (spawn : String → Except String α)
    (usePlanMode : Bool) (primaryCommand : String) :
    Except String α × List String :=
  let isFallback := strContains primaryCommand "npx"
  match spawn primaryCommand with
  | .ok child => (.ok child, [primaryCommand])
  | .error e =>
    if !isFallback then
      let fallbackCommand := claudeFallbackCommand usePlanMode
      (spawn fallbackCommand, [primaryCommand, fallbackCommand])
    else
      (.error e, [primaryCommand])

/-- `ClaudeFollowupExecutor::get_command`: override base gets the resume flag
appended; otherwise resolve, append the resume flag, and wrap in plan mode. -/
def ClaudeFollowupExecutor.getCommand (resolveCommand : Bool → String)
    (commandBase : Option String) (usePlanMode : Bool) (sessionId : String) : String :=
  match commandBase with
  | some cmd => cmd ++ " --resume=" ++ sessionId
  | none =>
    let fullCommand := resolveCommand usePlanMode ++ " --resume=" ++ sessionId
    if usePlanMode then createWatchkillScript fullCommand else fullCommand

/-- The fallback command built inside `ClaudeFollowupExecutor::try_spawn_with_fallback`. -/
def claudeFollowupFallbackCommand (usePlanMode : Bool) (sessionId : String) : String :=
  let fallbackCommand := buildClaudeCommand npxBaseCommand usePlanMode ++ " --resume=" ++ sessionId
  if usePlanMode then createWatchkillScript fallbackCommand else fallbackCommand

/-- `ClaudeFollowupExecutor::try_spawn_with_fallback`, same conventions as the
new-task variant. -/
def ClaudeFollowupExecutor.trySpawnWithFallback {α : Type} (spawn : String → Except String α)
    (usePlanMode : Bool) (sessionId : String) (primaryCommand : String) :
    Except String α × List String :=
  let isFallback := strContains primaryCommand "npx"
  match spawn primaryCommand with
  | .ok child => (.ok child, [primaryCommand])
  | .error e =>
    if !isFallback then
      let finalCommand := claudeFollowupFallbackCommand usePlanMode sessionId
      (spawn finalCommand, [primaryCommand, finalCommand])
    else
      (.error e, [primaryCommand])

/-! ## Normalized conversation data model -/

inductive ActionType where
  | fileRead (path : String) : ActionType
  | fileWrite (path : String) : ActionType
  | commandRun (command : String) : ActionType
  | search (query : String) : ActionType
  | webFetch (url : String) : ActionType
  | taskCreate (description : String) : ActionType
  | planPresentation (plan : String) : ActionType
  | other (description : String) : ActionType

inductive NormalizedEntryType where
  | userMessage : NormalizedEntryType
  | assistantMessage : NormalizedEntryType
  | systemMessage : NormalizedEntryType
  | toolUse (toolName : String) (actionType : ActionType) : NormalizedEntryType

structure NormalizedEntry where
  timestamp : Option Nat
  entryType : NormalizedEntryType
  content : String
  metadata : Option Json

structure NormalizedConversation where
  entries : List NormalizedEntry
  sessionId : Option String
  executorType : String
  prompt : Option String
  summary : Option String

/-! ## Action classification (`ClaudeExecutor::extract_action_type`) -/

/-- The lowercase tool names the classifier maps to a specific branch
(everything else hits the catch-all). -/
def mappedToolNames : List String :=
  ["read", "edit", "write", "multiedit", "bash", "grep", "glob", "webfetch",
   "task", "exit_plan_mode"]

/-- Body of `extract_action_type` after `let lower = tool_name.to_lowercase()`;
`lower` is the dispatch key, `toolName` the original name (used only in the
catch-all description). -/
def extractActionTypeWith (canon : String → Option String) (lower toolName : String)
    (input : Json) (worktreePath : String) : ActionType :=
  if lower = "read" then
    match jsonStrField input "file_path" with
    | some filePath => .fileRead (makePathRelative canon filePath worktreePath)
    | none => .other "File read operation"
  else if lower = "edit" ∨ lower = "write" ∨ lower = "multiedit" then
    match jsonStrField input "file_path" with
    | some filePath => .fileWrite (makePathRelative canon filePath worktreePath)
    | none =>
      match jsonStrField input "path" with
      | some path => .fileWrite (makePathRelative canon path worktreePath)
      | none => .other "File write operation"
  else if lower = "bash" then
    match jsonStrField input "command" with
    | some command => .commandRun command
    | none => .other "Command execution"
  else if lower = "grep" then
    match jsonStrField input "pattern" with
    | some pat => .search pat
    | none => .other "Search operation"
  else if lower = "glob" then
    match jsonStrField input "pattern" with
    | some pat => .other ("Find files: " ++ pat)
    | none => .other "File pattern search"
  else if lower = "webfetch" then
    match jsonStrField input "url" with
    | some url => .webFetch url
    | none => .other "Web fetch operation"
  else if lower = "task" then
    match jsonStrField input "description" with
    | some description => .taskCreate description
    | none =>
      match jsonStrField input "prompt" with
      | some prompt => .taskCreate prompt
      | none => .other "Task creation"
  else if lower = "exit_plan_mode" then
    match jsonStrField input "plan" with
    | some plan => .planPresentation plan
    | none => .other "Plan presentation"
  else .other ("Tool: " ++ toolName)

/-- `ClaudeExecutor::extract_action_type`. -/
def extractActionType (canon : String → Option String) (toolName : String)
    (input : Json) (worktreePath : String) : ActionType :=
  extractActionTypeWith canon (lowerStr toolName) toolName input worktreePath

/-- One rendered todo item inside the todo-list summary. -/
def todoItemLine (todo : Json) : Option String :=
  match jsonStrField todo "content" with
  | some content =>
    let status := (jsonStrField todo "status").getD "pending"
    let statusEmoji :=
      if status = "completed" then "✅"
      else if status = "in_progress" then "🔄"
      else if status = "pending" ∨ status = "todo" then "⏳"
      else "📝"
    let priority := (jsonStrField todo "priority").getD "medium"
    some (statusEmoji ++ " " ++ content ++ " (" ++ priority ++ ")")
  | none => none

/-- Body of `generate_concise_content` after lowercasing the tool name. -/
def generateConciseContentWith (canon : String → Option String) (lower toolName : String)
    (input : Json) (actionType : ActionType) (worktreePath : String) : String :=
  match actionType with
  | .fileRead path => "`" ++ path ++ "`"
  | .fileWrite path => "`" ++ path ++ "`"
  | .commandRun command => "`" ++ command ++ "`"
  | .search query => "`" ++ query ++ "`"
  | .webFetch url => "`" ++ url ++ "`"
  | .taskCreate description => description
  | .planPresentation plan => plan
  | .other _ =>
    if lower = "todoread" ∨ lower = "todowrite" then
      match (Json.getField input "todos").bind Json.asArr with
      | some todos =>
        let todoItems := todos.filterMap todoItemLine
        if !todoItems.isEmpty then "TODO List:\n" ++ joinWith "\n" todoItems
        else "Managing TODO list"
      | none => "Managing TODO list"
    else if lower = "ls" then
      match jsonStrField input "path" with
      | some path =>
        let relativePath := makePathRelative canon path worktreePath
        if relativePath = "" then "List directory"
        else "List directory: `" ++ relativePath ++ "`"
      | none => "List directory"
    else if lower = "glob" then
      let pat := (jsonStrField input "pattern").getD "*"
      match jsonStrField input "path" with
      | some searchPath =>
        "Find files: `" ++ pat ++ "` in `" ++ makePathRelative canon searchPath worktreePath ++ "`"
      | none => "Find files: `" ++ pat ++ "`"
    else if lower = "codebase_search_agent" then
      match jsonStrField input "query" with
      | some query => "Search: " ++ query
      | none => "Codebase search"
    else toolName

/-- `ClaudeExecutor::generate_concise_content`. -/
def generateConciseContent (canon : String → Option String) (toolName : String)
    (input : Json) (actionType : ActionType) (worktreePath : String) : String :=
  generateConciseContentWith canon (lowerStr toolName) toolName input actionType worktreePath

/-! ## Log normalization (`ClaudeExecutor::normalize_logs`) -/

/-- Entries produced by one content item of an `assistant` message:
a `text` item becomes an assistant entry, a `tool_use` item a classified
tool-use entry, anything else is skipped. -/
def processAssistantContentItem (canon : String → Option String) (worktreePath : String)
    (item : Json) : List NormalizedEntry :=
  match jsonStrField item "type" with
  | some "text" =>
    match jsonStrField item "text" with
    | some text => [⟨none, .assistantMessage, text, some item⟩]
    | none => []
  | some "tool_use" =>
    match jsonStrField item "name" with
    | some toolName =>
      let input := (Json.getField item "input").getD Json.null
      let actionType := extractActionType canon toolName input worktreePath
      let content := generateConciseContent canon toolName input actionType worktreePath
      [⟨none, .toolUse toolName actionType, content, some item⟩]
    | none => []
  | _ => []

/-- Entries produced by one content item of a `user` message: only `text`
items become entries. -/
def processUserContentItem (item : Json) : List NormalizedEntry :=
  match jsonStrField item "type" with
  | some "text" =>
    match jsonStrField item "text" with
    | some text => [⟨none, .userMessage, text, some item⟩]
    | none => []
  | _ => []

/-- Session-identifier capture for one parsed line: keep the already-captured
identifier, otherwise take this line's string `session_id` field if present. -/
def sessionAfter (captured : Option String) (json : Json) : Option String :=
  match captured with
  | some s => some s
  | none => jsonStrField json "session_id"

/-- The entries an `assistant` line contributes. -/
def assistantEntries (canon : String → Option String) (worktreePath : String)
    (json : Json) : List NormalizedEntry :=
  match Json.getField json "message" with
  | some message =>
    match (Json.getField message "content").bind Json.asArr with
    | some content => (content.map (processAssistantContentItem canon worktreePath)).flatten
    | none => []
  | none => []

/-- The entries a `user` line contributes. -/
def userEntries (json : Json) : List NormalizedEntry :=
  match Json.getField json "message" with
  | some message =>
    match (Json.getField message "content").bind Json.asArr with
    | some content => (content.map processUserContentItem).flatten
    | none => []
  | none => []

/-- The entries a `system` line contributes (only the `init` subtype). -/
def systemEntries (json : Json) : List NormalizedEntry :=
  if jsonStrField json "subtype" = some "init" then
    [⟨none, .systemMessage,
      "System initialized with model: " ++ ((jsonStrField json "model").getD "unknown"),
      some json⟩]
  else []

/-- One iteration of the line loop in `normalize_logs`, over the running state
`(entries so far, captured session id)`. -/
def normalizeStep (parse : String → Option Json) (canon : String → Option String)
    (worktreePath : String) (st : List NormalizedEntry × Option String)
    (line : String) : List NormalizedEntry × Option String :=
  let trimmed := trimStr line
  if trimmed = "" then st
  else
    match parse trimmed with
    | none => (st.1 ++ [⟨none, .systemMessage, "Raw output: " ++ trimmed, none⟩], st.2)
    | some json =>
      let sess := sessionAfter st.2 json
      let msgType := jsonStrField json "type"
      if msgType = some "assistant" then
        (st.1 ++ assistantEntries canon worktreePath json, sess)
      else if msgType = some "user" then
        (st.1 ++ userEntries json, sess)
      else if msgType = some "system" then
        (st.1 ++ systemEntries json, sess)
      else if msgType = some "result" then
        (st.1, sess)
      else
        (st.1 ++ [⟨none, .systemMessage, "Unrecognized JSON: " ++ trimmed, some json⟩], sess)

/-- The conversation value built by `normalize_logs` (the body of the
function; the source wraps it in `Ok`). -/
def normalizeLogsCore (parse : String → Option Json) (canon : String → Option String)
    (executorType logs worktreePath : String) : NormalizedConversation :=
  let st := (strLines logs).foldl (normalizeStep parse canon worktreePath) ([], none)
  ⟨st.1, st.2, executorType, none, none⟩

/-- `ClaudeExecutor::normalize_logs`: total, always `Ok`. -/
def normalizeLogs (parse : String → Option Json) (canon : String → Option String)
    (executorType logs worktreePath : String) : Except String NormalizedConversation :=
  Except.ok (normalizeLogsCore parse canon executorType logs worktreePath)

/-- The session component of one `normalizeStep` iteration, in isolation. -/
def stepSession (parse : String → Option Json) (captured : Option String)
    (line : String) : Option String :=
  let trimmed := trimStr line
  if trimmed = "" then captured
  else
    match parse trimmed with
    | none => captured
    | some json => sessionAfter captured json

/-- Specification-side definition for the session-identifier rule: the string
`session_id` field of the first non-blank line that parses and carries one. -/
def firstSessionId (parse : String → Option Json) : List String → Option String
  | [] => none
  | line :: rest =>
    let trimmed := trimStr line
    if trimmed = "" then firstSessionId parse rest
    else
      match parse trimmed with
      | none => firstSessionId parse rest
      | some json =>
        match jsonStrField json "session_id" with
        | some s => some s
        | none => firstSessionId parse rest

/-! ## Concrete fixtures

Closed inputs used by witnesses and counterexamples.  The `…Parse` functions
are concrete instances of the `serde_json` oracle: they map exactly the JSON
text of the fixture lines to the structured value `serde_json` would produce,
and `none` (parse failure) elsewhere. -/

/-- Canonicalization oracle for a filesystem on which no probed path exists. -/
def canonNone : String → Option String := fun _ => none

/-- Spawn oracle that fails on every command. -/
def spawnFail : String → Except String Unit := fun _ => .error "spawn failed"

def c1Line1 : String := "\x7b\"type\":\"system\",\"subtype\":\"init\",\"model\":\"m1\"\x7d"

def c1Json1 : Json :=
  .obj [("type", .str "system"), ("subtype", .str "init"), ("model", .str "m1")]

def c1Line2 : String :=
  "\x7b\"type\":\"assistant\",\"message\":\x7b\"content\":[\x7b\"type\":\"text\",\"text\":\"hi\"\x7d]\x7d\x7d"

def c1Json2 : Json :=
  .obj [("type", .str "assistant"),
        ("message", .obj [("content", .arr [.obj [("type", .str "text"), ("text", .str "hi")]])])]

def c1Line3 : String := "\x7b\"type\":\"result\",\"result\":\"done\"\x7d"

def c1Json3 : Json := .obj [("type", .str "result"), ("result", .str "done")]

def c1Line4 : String := "\x7b\"type\":\"mystery\"\x7d"

def c1Json4 : Json := .obj [("type", .str "mystery")]

/-- Parse oracle for the four-line scenario of the spec. -/
def c1Parse : String → Option Json := fun s =>
  if s = c1Line1 then some c1Json1
  else if s = c1Line2 then some c1Json2
  else if s = c1Line3 then some c1Json3
  else if s = c1Line4 then some c1Json4
  else none

/-- The four-line log text of the spec scenario. -/
def c1Logs : String := c1Line1 ++ "\n" ++ c1Line2 ++ "\n" ++ c1Line3 ++ "\n" ++ c1Line4

/-- An `assistant` line with no `message` substructure. -/
def c3Line : String := "\x7b\"type\":\"assistant\"\x7d"

def c3Json : Json := .obj [("type", .str "assistant")]

def c3Parse : String → Option Json := fun s => if s = c3Line then some c3Json else none

/-- An assistant line holding one `Read` tool use on an absolute path. -/
def c8Line : String :=
  "\x7b\"type\":\"assistant\",\"message\":\x7b\"content\":[\x7b\"type\":\"tool_use\",\"name\":\"Read\",\"input\":\x7b\"file_path\":\"/abs/f\"\x7d\x7d]\x7d\x7d"

def c8Json : Json :=
  .obj [("type", .str "assistant"),
        ("message", .obj [("content", .arr
          [.obj [("type", .str "tool_use"), ("name", .str "Read"),
                 ("input", .obj [("file_path", .str "/abs/f")])]])])]

def c8Parse : String → Option Json := fun s => if s = c8Line then some c8Json else none

/-- Canonicalization oracle for a filesystem where `/abs/f` is a symlinked
view of `/wt/f` inside the worktree `/wt`. -/
def c8CanonB : String → Option String := fun s =>
  if s = "/abs/f" then some "/wt/f"
  else if s = "/wt" then some "/wt"
  else none

/-! ## Helper lemmas -/

/-- The session component of a `normalizeStep` iteration is `stepSession`. -/
theorem normalizeStep_session (parse : String → Option Json) (canon : String → Option String)
    (wt : String) (st : List NormalizedEntry × Option String) (line : String) :
    (normalizeStep parse canon wt st line).2 = stepSession parse st.2 line := by
  simp only [normalizeStep, stepSession]
  by_cases h : trimStr line = ""
  · simp [h]
  · rw [if_neg h, if_neg h]
    cases hp : parse (trimStr line) with
    | none => rfl
    | some json =>
      simp only []
      split_ifs <;> rfl

/-- An already-captured session identifier is never overwritten. -/
theorem stepSession_some (parse : String → Option Json) (s : String) (line : String) :
    stepSession parse (some s) line = some s := by
  simp only [stepSession]
  by_cases h : trimStr line = ""
  · rw [if_pos h]
  · rw [if_neg h]
    cases parse (trimStr line) with
    | none => rfl
    | some json => rfl

/-- The session identifier accumulated by the line loop is the one of the
first qualifying line, unless one was already captured. -/
theorem foldl_normalizeStep_session (parse : String → Option Json)
    (canon : String → Option String) (wt : String) :
    ∀ (ls : List String) (st : List NormalizedEntry × Option String),
      ((ls.foldl (normalizeStep parse canon wt) st).2 =
        match st.2 with
        | some s => some s
        | none => firstSessionId parse ls) := by
  intro ls
  induction ls with
  | nil =>
    intro st
    cases hc : st.2 <;> simp [hc, firstSessionId]
  | cons l rest ih =>
    intro st
    rw [List.foldl_cons, ih, normalizeStep_session]
    cases hc : st.2 with
    | some s => rw [stepSession_some]
    | none =>
      simp only [stepSession, firstSessionId]
      by_cases h : trimStr l = ""
      · rw [if_pos h, if_pos h]
      · rw [if_neg h, if_neg h]
        cases hp : parse (trimStr l) with
        | none => rfl
        | some json => simp only [sessionAfter]

/-- The classifier branch selected for a mapped lowercase tool name never
consults the original (uppercase) spelling of the name. -/
theorem extractActionTypeWith_name_irrelevant (canon : String → Option String)
    (input : Json) (wt : String) (lower n1 n2 : String)
    (h : lower ∈ mappedToolNames) :
    extractActionTypeWith canon lower n1 input wt =
      extractActionTypeWith canon lower n2 input wt := by
  simp only [mappedToolNames, List.mem_cons, List.not_mem_nil, or_false] at h
  rcases h with rfl | rfl | rfl | rfl | rfl | rfl | rfl | rfl | rfl | rfl <;> rfl

/-! ## Claim theorems -/

/-- C1: every line that parses as JSON with a "type" field equal to "result"
contributes zero entries to the output of normalize (the "result" tag is not
one of the processed tags, so no processed branch applies to it), and on the
four-line scenario of the spec (system init with model m1, assistant text
"hi", a result line with payload "done", an unknown "mystery" type) normalize
yields exactly 3 entries — the init summary, the assistant message, and the
unrecognized-JSON entry — none of whose contents contain the payload word
"done" of the dropped result line. -/
theorem c1_result_lines_dropped :
    (∀ (parse : String → Option Json) (canon : String → Option String) (wt : String)
       (st : List NormalizedEntry × Option String) (line : String) (json : Json),
       parse (trimStr line) = some json →
       jsonStrField json "type" = some "result" →
       (normalizeStep parse canon wt st line).1 = st.1) ∧
    (normalizeLogsCore c1Parse canonNone "Claude" c1Logs "/tmp/w").entries.map
      (fun e => e.content) =
      ["System initialized with model: m1", "hi", "Unrecognized JSON: " ++ c1Line4] ∧
    (normalizeLogsCore c1Parse canonNone "Claude" c1Logs "/tmp/w").entries.length = 3 ∧
    ((normalizeLogsCore c1Parse canonNone "Claude" c1Logs "/tmp/w").entries.map
      (fun e => e.content)).all (fun c => !(strContains c "done")) = true := by
  refine ⟨?_, by decide, by decide, by decide⟩
  intro parse canon wt st line json hp hty
  simp only [normalizeStep]
  by_cases h : trimStr line = ""
  · rw [if_pos h]
  · rw [if_neg h, hp]
    simp [hty]

/-- Witness for C1: the concrete result line of the scenario leaves the entry
list unchanged, and the scenario produces exactly 3 entries. -/
theorem c1_result_lines_dropped_witness :
    (normalizeStep c1Parse canonNone "/tmp/w" ([], none) c1Line3).1 =
      ([] : List NormalizedEntry) ∧
    (normalizeLogsCore c1Parse canonNone "Claude" c1Logs "/tmp/w").entries.length = 3 :=
  ⟨c1_result_lines_dropped.1 c1Parse canonNone "/tmp/w" ([], none) c1Line3 c1Json3 rfl rfl,
   c1_result_lines_dropped.2.2.1⟩

/-- C2 fails as stated: a caller-supplied override command containing "npx"
that is not the universal fallback gets zero retries on spawn failure, not
the claimed exactly-one retry — the attempt trace holds only the primary
command and the primary error is surfaced. -/
theorem c2_spawn_fallback_counterexample :
    ClaudeExecutor.getCommand (fun _ => "claude-code") (some "npx --version") false =
      "npx --version" ∧
    ClaudeExecutor.trySpawnWithFallback spawnFail false "npx --version" =
      (Except.error "spawn failed", ["npx --version"]) ∧
    "npx --version" ≠ claudeFallbackCommand false ∧
    "npx --version" ≠ claudeFallbackCommand true :=
  ⟨rfl, rfl, by decide, by decide⟩

/-- C2 amended: the already-the-fallback test is substring containment of
"npx".  For both launch variants, if the first spawn fails and the attempted
command does not contain "npx", exactly one retry runs using the universal
fallback command (same mode, same wrapping rules) and the retry outcome is
what surfaces; if the attempted command contains "npx", zero retries occur
and the primary error surfaces immediately. -/
theorem c2_spawn_fallback_amended (α : Type) (spawn : String → Except String α)
    (usePlanMode : Bool) (sessionId primary e : String)
    (hs : spawn primary = Except.error e) :
    (strContains primary "npx" = false →
      ClaudeExecutor.trySpawnWithFallback spawn usePlanMode primary =
        (spawn (claudeFallbackCommand usePlanMode),
         [primary, claudeFallbackCommand usePlanMode]) ∧
      ClaudeFollowupExecutor.trySpawnWithFallback spawn usePlanMode sessionId primary =
        (spawn (claudeFollowupFallbackCommand usePlanMode sessionId),
         [primary, claudeFollowupFallbackCommand usePlanMode sessionId])) ∧
    (strContains primary "npx" = true →
      ClaudeExecutor.trySpawnWithFallback spawn usePlanMode primary =
        (Except.error e, [primary]) ∧
      ClaudeFollowupExecutor.trySpawnWithFallback spawn usePlanMode sessionId primary =
        (Except.error e, [primary])) := by
  constructor
  · intro hnpx
    constructor
    · simp [ClaudeExecutor.trySpawnWithFallback, hs, hnpx]
    · simp [ClaudeFollowupExecutor.trySpawnWithFallback, hs, hnpx]
  · intro hnpx
    constructor
    · simp [ClaudeExecutor.trySpawnWithFallback, hs, hnpx]
    · simp [ClaudeFollowupExecutor.trySpawnWithFallback, hs, hnpx]

/-- Witness for the amended C2: a failing non-npx primary command is retried
exactly once with the fallback, in both launch variants. -/
theorem c2_spawn_fallback_amended_witness :
    ClaudeExecutor.trySpawnWithFallback spawnFail false "claude-code -p" =
      (Except.error "spawn failed", ["claude-code -p", claudeFallbackCommand false]) ∧
    ClaudeFollowupExecutor.trySpawnWithFallback spawnFail false "sess-1" "claude-code -p" =
      (Except.error "spawn failed",
       ["claude-code -p", claudeFollowupFallbackCommand false "sess-1"]) :=
  (c2_spawn_fallback_amended Unit spawnFail false "sess-1" "claude-code -p" "spawn failed"
    rfl).1 rfl

/-- C3 fails as stated: an assistant line with no message substructure is
still marked processed and contributes zero entries — not the claimed one
unrecognized SystemMessage entry. -/
theorem c3_unrecognized_claim_counterexample :
    (normalizeLogsCore c3Parse canonNone "Claude" c3Line "/tmp/w").entries = [] ∧
    (normalizeLogsCore c3Parse canonNone "Claude" c3Line "/tmp/w").entries.length ≠ 1 :=
  ⟨rfl, by decide⟩

/-- C3 amended: a parsed line whose type tag is assistant, user, or system is
always treated as processed, even when its expected substructure is absent,
and then contributes zero entries; only a line whose type tag is absent or
outside the recognized set is not processed, and such a line — unless its
type is "result" — emits exactly one unrecognized SystemMessage entry
carrying the full structured value as metadata. -/
theorem c3_amended :
    (∀ (parse : String → Option Json) (canon : String → Option String) (wt : String)
       (st : List NormalizedEntry × Option String) (line : String) (json : Json),
       parse (trimStr line) = some json →
       jsonStrField json "type" = some "assistant" →
       Json.getField json "message" = none →
       (normalizeStep parse canon wt st line).1 = st.1) ∧
    (∀ (parse : String → Option Json) (canon : String → Option String) (wt : String)
       (st : List NormalizedEntry × Option String) (line : String) (json : Json),
       parse (trimStr line) = some json →
       jsonStrField json "type" = some "user" →
       Json.getField json "message" = none →
       (normalizeStep parse canon wt st line).1 = st.1) ∧
    (∀ (parse : String → Option Json) (canon : String → Option String) (wt : String)
       (st : List NormalizedEntry × Option String) (line : String) (json : Json),
       parse (trimStr line) = some json →
       jsonStrField json "type" = some "system" →
       jsonStrField json "subtype" = none →
       (normalizeStep parse canon wt st line).1 = st.1) ∧
    (∀ (parse : String → Option Json) (canon : String → Option String) (wt : String)
       (st : List NormalizedEntry × Option String) (line : String) (json : Json),
       trimStr line ≠ "" →
       parse (trimStr line) = some json →
       jsonStrField json "type" ≠ some "assistant" →
       jsonStrField json "type" ≠ some "user" →
       jsonStrField json "type" ≠ some "system" →
       jsonStrField json "type" ≠ some "result" →
       normalizeStep parse canon wt st line =
         (st.1 ++ [⟨none, .systemMessage, "Unrecognized JSON: " ++ trimStr line, some json⟩],
          sessionAfter st.2 json)) := by
  refine ⟨?_, ?_, ?_, ?_⟩
  · intro parse canon wt st line json hp hty hmsg
    simp only [normalizeStep]
    by_cases h : trimStr line = ""
    · rw [if_pos h]
    · rw [if_neg h, hp]
      simp [hty, assistantEntries, hmsg]
  · intro parse canon wt st line json hp hty hmsg
    simp only [normalizeStep]
    by_cases h : trimStr line = ""
    · rw [if_pos h]
    · rw [if_neg h, hp]
      simp [hty, userEntries, hmsg]
  · intro parse canon wt st line json hp hty hsub
    simp only [normalizeStep]
    by_cases h : trimStr line = ""
    · rw [if_pos h]
    · rw [if_neg h, hp]
      simp [hty, systemEntries, hsub]
  · intro parse canon wt st line json hne hp h1 h2 h3 h4
    simp only [normalizeStep]
    rw [if_neg hne, hp]
    simp [h1, h2, h3, h4]

/-- Witness for the amended C3: the substructure-free assistant line adds no
entry, and the concrete "mystery" line adds exactly one unrecognized entry. -/
theorem c3_amended_witness :
    (normalizeStep c3Parse canonNone "/tmp/w" ([], none) c3Line).1 =
      ([] : List NormalizedEntry) ∧
    normalizeStep c1Parse canonNone "/tmp/w" ([], none) c1Line4 =
      ([⟨none, .systemMessage, "Unrecognized JSON: " ++ c1Line4, some c1Json4⟩], none) :=
  ⟨c3_amended.1 c3Parse canonNone "/tmp/w" ([], none) c3Line c3Json rfl rfl rfl,
   c3_amended.2.2.2 c1Parse canonNone "/tmp/w" ([], none) c1Line4 c1Json4 (by decide) rfl
     (by decide) (by decide) (by decide) (by decide)⟩

/-- C4 (claim right, code wrong): with no config override and a succeeding
local-installation probe, the first resolution call runs the probe, yet the
memo after the call holds `some none` — the positive result is never stored,
because `get_or_init` permanently initializes the lock with `None` — so the
second call probes again instead of using a cached path. -/
theorem c4_positive_probe_never_cached :
    (getClaudeCommand ⟨none, some "/usr/local/bin/claude-code"⟩ false none).probed = true ∧
    (getClaudeCommand ⟨none, some "/usr/local/bin/claude-code"⟩ false none).command =
      buildClaudeCommand "/usr/local/bin/claude-code" false ∧
    (getClaudeCommand ⟨none, some "/usr/local/bin/claude-code"⟩ false none).cache = some none ∧
    (getClaudeCommand ⟨none, some "/usr/local/bin/claude-code"⟩ false
      (getClaudeCommand ⟨none, some "/usr/local/bin/claude-code"⟩ false none).cache).probed =
      true ∧
    (getClaudeCommand ⟨none, some "/usr/local/bin/claude-code"⟩ false
      (getClaudeCommand ⟨none, some "/usr/local/bin/claude-code"⟩ false none).cache).cache =
      some none :=
  ⟨rfl, rfl, rfl, rfl, rfl⟩

/-- C5 fails as stated: a non-blank unparseable line with leading whitespace
yields an entry whose content is the trimmed line prefixed, which differs
from the original line prefixed. -/
theorem c5_raw_line_counterexample :
    (normalizeLogsCore (fun _ => none) canonNone "Claude" " hello" "/w").entries.map
      (fun e => e.content) = ["Raw output: hello"] ∧
    "Raw output: hello" ≠ "Raw output: " ++ " hello" :=
  ⟨by decide, by decide⟩

/-- C5 amended: normalize always returns successfully, and every non-blank
line that fails to parse yields exactly one SystemMessage entry whose content
is the trimmed line (not the original line) prefixed with the raw-output
marker. -/
theorem c5_amended :
    (∀ (parse : String → Option Json) (canon : String → Option String)
       (executorType logs wt : String),
       normalizeLogs parse canon executorType logs wt =
         Except.ok (normalizeLogsCore parse canon executorType logs wt)) ∧
    (∀ (parse : String → Option Json) (canon : String → Option String) (wt : String)
       (st : List NormalizedEntry × Option String) (line : String),
       trimStr line ≠ "" →
       parse (trimStr line) = none →
       normalizeStep parse canon wt st line =
         (st.1 ++ [⟨none, .systemMessage, "Raw output: " ++ trimStr line, none⟩], st.2)) := by
  refine ⟨fun _ _ _ _ _ => rfl, ?_⟩
  intro parse canon wt st line hne hp
  simp only [normalizeStep]
  rw [if_neg hne, hp]

/-- Witness for the amended C5: the scenario log normalizes successfully, and
the concrete unparseable line " hello" yields one raw-output entry. -/
theorem c5_amended_witness :
    normalizeLogs c1Parse canonNone "Claude" c1Logs "/tmp/w" =
      Except.ok (normalizeLogsCore c1Parse canonNone "Claude" c1Logs "/tmp/w") ∧
    normalizeStep (fun _ => none) canonNone "/w" ([], none) " hello" =
      ([⟨none, .systemMessage, "Raw output: hello", none⟩], none) :=
  ⟨c5_amended.1 c1Parse canonNone "Claude" c1Logs "/tmp/w",
   c5_amended.2 (fun _ => none) canonNone "/w" ([], none) " hello" (by decide) rfl⟩

/-- C6: the session identifier returned by normalize is exactly the string
session_id field of the first line (top to bottom) that parses and carries
one — it is set at most once and later lines are ignored, as expressed by the
`firstSessionId` recursion. -/
theorem c6_session_id_first_line (parse : String → Option Json)
    (canon : String → Option String) (executorType logs wt : String) :
    (normalizeLogsCore parse canon executorType logs wt).sessionId =
      firstSessionId parse (strLines logs) := by
  simp only [normalizeLogsCore]
  rw [foldl_normalizeStep_session]

/-- C7: the relativizer follows the specified chain — a relative path is
returned unchanged; an absolute path is prefix-stripped directly when
possible; otherwise both paths are canonicalized and the strip retried; and
when the direct strip fails and either canonicalization fails, the original
path comes back unmodified. -/
theorem c7_relativize_chain :
    (∀ (canon : String → Option String) (path wt : String),
       isRelativePath path = true → makePathRelative canon path wt = path) ∧
    (∀ (canon : String → Option String) (path wt r : String),
       isRelativePath path = false → pathRemainder path wt = some r →
       makePathRelative canon path wt = r) ∧
    (∀ (canon : String → Option String) (path wt cp cw : String),
       isRelativePath path = false → pathRemainder path wt = none →
       canon path = some cp → canon wt = some cw →
       makePathRelative canon path wt = (pathRemainder cp cw).getD path) ∧
    (∀ (canon : String → Option String) (path wt : String),
       isRelativePath path = false → pathRemainder path wt = none →
       (canon path = none ∨ canon wt = none) →
       makePathRelative canon path wt = path) := by
  refine ⟨?_, ?_, ?_, ?_⟩
  · intro canon path wt h
    simp [makePathRelative, h]
  · intro canon path wt r h hr
    simp [makePathRelative, h, hr]
  · intro canon path wt cp cw h hr hcp hcw
    simp only [makePathRelative, h, Bool.false_eq_true, if_false, hr, hcp, hcw]
    cases hx : pathRemainder cp cw <;> simp
  · intro canon path wt h hr hc
    simp only [makePathRelative, h, Bool.false_eq_true, if_false, hr]
    rcases hc with hc | hc
    · rw [hc]
    · rw [hc]
      cases hx : canon path <;> rfl

/-- Witness for C7: the two concrete examples of the spec — a doubly
uncanonicalizable absolute path comes back unchanged, and an already-relative
path comes back unchanged. -/
theorem c7_relativize_chain_witness :
    makePathRelative canonNone "/nonexistent/p" "/tmp/w" = "/nonexistent/p" ∧
    makePathRelative canonNone "src/main.x" "/any/root" = "src/main.x" :=
  ⟨c7_relativize_chain.2.2.2 canonNone "/nonexistent/p" "/tmp/w" (by decide) (by decide)
     (Or.inl rfl),
   c7_relativize_chain.1 canonNone "src/main.x" "/any/root" (by decide)⟩

/-- C8 fails as stated: with identical log text and working directory, two
runs under different filesystem canonicalization states produce different
entries — normalize performs filesystem canonicalization when relativizing an
absolute tool path, so it is not an I/O-free function of its two inputs. -/
theorem c8_purity_counterexample :
    (normalizeLogsCore c8Parse canonNone "Claude" c8Line "/wt").entries.map
      (fun e => e.content) = ["`/abs/f`"] ∧
    (normalizeLogsCore c8Parse c8CanonB "Claude" c8Line "/wt").entries.map
      (fun e => e.content) = ["`f`"] ∧
    (normalizeLogsCore c8Parse canonNone "Claude" c8Line "/wt").entries.map
      (fun e => e.content) ≠
      (normalizeLogsCore c8Parse c8CanonB "Claude" c8Line "/wt").entries.map
      (fun e => e.content) :=
  ⟨by decide, by decide, by decide⟩

/-- C8 amended: normalize is deterministic in its inputs for a fixed
filesystem state — two calls with identical log text, working directory, and
canonicalization behavior yield identical conversations (in particular
identical ordered entry sequences). -/
theorem c8_amended (parse : String → Option Json) (canon : String → Option String)
    (executorType logs wt logs2 wt2 : String) (hl : logs = logs2) (hw : wt = wt2) :
    normalizeLogs parse canon executorType logs wt =
      normalizeLogs parse canon executorType logs2 wt2 := by
  rw [hl, hw]

/-- Witness for the amended C8 at the concrete scenario input. -/
theorem c8_amended_witness :
    normalizeLogs c1Parse canonNone "Claude" c1Logs "/tmp/w" =
      normalizeLogs c1Parse canonNone "Claude" c1Logs "/tmp/w" :=
  c8_amended c1Parse canonNone "Claude" c1Logs "/tmp/w" c1Logs "/tmp/w" rfl rfl

/-- C9: the classifier is total (a Lean function), dispatches
case-insensitively (two spellings with the same lowercase form classify
identically on every mapped name), maps a grep tool with a pattern to Search
with that pattern as query, maps a glob tool to Other (never Search) even
when its pattern is present, maps any unmapped name to Other with description
"Tool: " followed by the name, and maps every mapped tool whose required
argument field is missing to Other with a generic description of the
attempted operation. -/
theorem c9_classifier :
    (∀ (canon : String → Option String) (tn1 tn2 : String) (input : Json) (wt : String),
       lowerStr tn1 = lowerStr tn2 → lowerStr tn1 ∈ mappedToolNames →
       extractActionType canon tn1 input wt = extractActionType canon tn2 input wt) ∧
    (∀ (canon : String → Option String) (input : Json) (wt p : String),
       jsonStrField input "pattern" = some p →
       extractActionType canon "grep" input wt = ActionType.search p) ∧
    (∀ (canon : String → Option String) (input : Json) (wt p : String),
       jsonStrField input "pattern" = some p →
       extractActionType canon "glob" input wt = ActionType.other ("Find files: " ++ p)) ∧
    (∀ (canon : String → Option String) (tn : String) (input : Json) (wt : String),
       lowerStr tn ∉ mappedToolNames →
       extractActionType canon tn input wt = ActionType.other ("Tool: " ++ tn)) ∧
    (∀ (canon : String → Option String) (input : Json) (wt : String),
       (jsonStrField input "file_path" = none →
         extractActionType canon "read" input wt = ActionType.other "File read operation") ∧
       (jsonStrField input "file_path" = none → jsonStrField input "path" = none →
         extractActionType canon "edit" input wt = ActionType.other "File write operation" ∧
         extractActionType canon "write" input wt = ActionType.other "File write operation" ∧
         extractActionType canon "multiedit" input wt =
           ActionType.other "File write operation") ∧
       (jsonStrField input "command" = none →
         extractActionType canon "bash" input wt = ActionType.other "Command execution") ∧
       (jsonStrField input "pattern" = none →
         extractActionType canon "grep" input wt = ActionType.other "Search operation") ∧
       (jsonStrField input "pattern" = none →
         extractActionType canon "glob" input wt = ActionType.other "File pattern search") ∧
       (jsonStrField input "url" = none →
         extractActionType canon "webfetch" input wt = ActionType.other "Web fetch operation") ∧
       (jsonStrField input "description" = none → jsonStrField input "prompt" = none →
         extractActionType canon "task" input wt = ActionType.other "Task creation") ∧
       (jsonStrField input "plan" = none →
         extractActionType canon "exit_plan_mode" input wt =
           ActionType.other "Plan presentation")) := by
  have hgrep : ∀ (canon : String → Option String) (input : Json) (wt : String),
      extractActionType canon "grep" input wt =
        (match jsonStrField input "pattern" with
         | some pat => ActionType.search pat
         | none => ActionType.other "Search operation") := fun _ _ _ => rfl
  have hglob : ∀ (canon : String → Option String) (input : Json) (wt : String),
      extractActionType canon "glob" input wt =
        (match jsonStrField input "pattern" with
         | some pat => ActionType.other ("Find files: " ++ pat)
         | none => ActionType.other "File pattern search") := fun _ _ _ => rfl
  refine ⟨?_, ?_, ?_, ?_, ?_⟩
  · intro canon tn1 tn2 input wt h hmem
    simp only [extractActionType]
    rw [← h]
    exact extractActionTypeWith_name_irrelevant canon input wt (lowerStr tn1) tn1 tn2 hmem
  · intro canon input wt p hp
    rw [hgrep, hp]
  · intro canon input wt p hp
    rw [hglob, hp]
  · intro canon tn input wt h
    simp only [mappedToolNames, List.mem_cons, List.not_mem_nil, or_false, not_or] at h
    obtain ⟨h1, h2, h3, h4, h5, h6, h7, h8, h9, h10⟩ := h
    simp [extractActionType, extractActionTypeWith, h1, h2, h3, h4, h5, h6, h7, h8, h9, h10]
  · intro canon input wt
    have hread : extractActionType canon "read" input wt =
        (match jsonStrField input "file_path" with
         | some fp => ActionType.fileRead (makePathRelative canon fp wt)
         | none => ActionType.other "File read operation") := rfl
    have hedit : ∀ tn, lowerStr tn = tn → tn = "edit" ∨ tn = "write" ∨ tn = "multiedit" →
        extractActionType canon tn input wt =
        (match jsonStrField input "file_path" with
         | some fp => ActionType.fileWrite (makePathRelative canon fp wt)
         | none =>
           match jsonStrField input "path" with
           | some p2 => ActionType.fileWrite (makePathRelative canon p2 wt)
           | none => ActionType.other "File write operation") := by
      intro tn hl htn
      rcases htn with rfl | rfl | rfl <;> rfl
    have hbash : extractActionType canon "bash" input wt =
        (match jsonStrField input "command" with
         | some c => ActionType.commandRun c
         | none => ActionType.other "Command execution") := rfl
    have hweb : extractActionType canon "webfetch" input wt =
        (match jsonStrField input "url" with
         | some u => ActionType.webFetch u
         | none => ActionType.other "Web fetch operation") := rfl
    have htask : extractActionType canon "task" input wt =
        (match jsonStrField input "description" with
         | some d => ActionType.taskCreate d
         | none =>
           match jsonStrField input "prompt" with
           | some pr => ActionType.taskCreate pr
           | none => ActionType.other "Task creation") := rfl
    have hplan : extractActionType canon "exit_plan_mode" input wt =
        (match jsonStrField input "plan" with
         | some pl => ActionType.planPresentation pl
         | none => ActionType.other "Plan presentation") := rfl
    refine ⟨?_, ?_, ?_, ?_, ?_, ?_, ?_, ?_⟩
    · intro hfp; rw [hread, hfp]
    · intro hfp hp
      refine ⟨?_, ?_, ?_⟩ <;>
        [rw [hedit "edit" rfl (Or.inl rfl), hfp, hp];
         rw [hedit "write" rfl (Or.inr (Or.inl rfl)), hfp, hp];
         rw [hedit "multiedit" rfl (Or.inr (Or.inr rfl)), hfp, hp]]
    · intro hc; rw [hbash, hc]
    · intro hp; rw [hgrep, hp]
    · intro hp; rw [hglob, hp]
    · intro hu; rw [hweb, hu]
    · intro hd hpr; rw [htask, hd, hpr]
    · intro hpl; rw [hplan, hpl]

/-- Witness for C9: concrete classifications — uppercase Grep agrees with
lowercase grep, grep with a pattern yields Search, glob with a pattern yields
Other, an unknown tool yields the bare-name description, and read without a
file_path yields the generic read description. -/
theorem c9_classifier_witness :
    extractActionType canonNone "Grep" (Json.obj [("pattern", Json.str "TODO")]) "/w" =
      extractActionType canonNone "grep" (Json.obj [("pattern", Json.str "TODO")]) "/w" ∧
    extractActionType canonNone "grep" (Json.obj [("pattern", Json.str "TODO")]) "/w" =
      ActionType.search "TODO" ∧
    extractActionType canonNone "glob" (Json.obj [("pattern", Json.str "*.rs")]) "/w" =
      ActionType.other "Find files: *.rs" ∧
    extractActionType canonNone "MysteryTool" Json.null "/w" =
      ActionType.other "Tool: MysteryTool" ∧
    extractActionType canonNone "read" Json.null "/w" =
      ActionType.other "File read operation" :=
  ⟨c9_classifier.1 canonNone "Grep" "grep" (Json.obj [("pattern", Json.str "TODO")]) "/w"
     rfl (by decide),
   c9_classifier.2.1 canonNone (Json.obj [("pattern", Json.str "TODO")]) "/w" "TODO" rfl,
   c9_classifier.2.2.1 canonNone (Json.obj [("pattern", Json.str "*.rs")]) "/w" "*.rs" rfl,
   c9_classifier.2.2.2.1 canonNone "MysteryTool" Json.null "/w" (by decide),
   (c9_classifier.2.2.2.2 canonNone Json.null "/w").1 rfl⟩

/-- C10: the already-the-fallback decision is substring containment of "npx"
in the attempted command, for both launch variants: on spawn failure the
attempt trace has length 1 when the command contains "npx" and length 2
otherwise, and every npx-containing command — the caller-supplied override
included — surfaces its spawn error immediately with zero fallback retries. -/
theorem c10_npx_substring_decides_fallback (α : Type) (spawn : String → Except String α)
    (usePlanMode : Bool) (cmd sessionId e : String)
    (hs : spawn cmd = Except.error e) :
    ((ClaudeExecutor.trySpawnWithFallback spawn usePlanMode cmd).2.length =
       if strContains cmd "npx" then 1 else 2) ∧
    ((ClaudeFollowupExecutor.trySpawnWithFallback spawn usePlanMode sessionId cmd).2.length =
       if strContains cmd "npx" then 1 else 2) ∧
    (strContains cmd "npx" = true →
      ClaudeExecutor.trySpawnWithFallback spawn usePlanMode cmd = (Except.error e, [cmd]) ∧
      ClaudeFollowupExecutor.trySpawnWithFallback spawn usePlanMode sessionId cmd =
        (Except.error e, [cmd])) := by
  refine ⟨?_, ?_, ?_⟩
  · cases hc : strContains cmd "npx" <;>
      simp [ClaudeExecutor.trySpawnWithFallback, hs, hc]
  · cases hc : strContains cmd "npx" <;>
      simp [ClaudeFollowupExecutor.trySpawnWithFallback, hs, hc]
  · intro hc
    exact ⟨by simp [ClaudeExecutor.trySpawnWithFallback, hs, hc],
           by simp [ClaudeFollowupExecutor.trySpawnWithFallback, hs, hc]⟩

/-- Witness for C10: the npx-containing non-fallback command "npx --version"
surfaces its spawn error immediately with a one-element attempt trace, in
both launch variants. -/
theorem c10_npx_substring_witness :
    ClaudeExecutor.trySpawnWithFallback spawnFail false "npx --version" =
      (Except.error "spawn failed", ["npx --version"]) ∧
    ClaudeFollowupExecutor.trySpawnWithFallback spawnFail false "sess-1" "npx --version" =
      (Except.error "spawn failed", ["npx --version"]) :=
  (c10_npx_substring_decides_fallback Unit spawnFail false "npx --version" "sess-1"
    "spawn failed" rfl).2.2 rfl

end ClaudeVerify
